import Mathlib

/-!
Verification of the frame-baking and cache-lifecycle engine of
`cocos/spine/skeleton-cache.ts` (classes `AnimationCache` and `SkeletonCache`).

Shallow embedding conventions:
* JavaScript numbers that hold times or durations are modelled as exact
  rationals (`ℚ`); `Math.floor` is `Int.floor`.
* Frame indices (`_frameIdx`, initialised to `-1`) are modelled as `ℤ`.
* JavaScript objects used as dictionaries are association lists with
  JS-assignment semantics (replace the existing key, else append).
* The spine pose engine (`spine.SkeletonInstance`, loaded from wasm and not
  part of the translated source) is modelled from the spec, §6: it holds the
  current (non-looping) track animation and the number of fixed ticks
  simulated since that animation was set; its completion callback fires
  during the update step whose accumulated animation time first reaches the
  animation's duration.  Definitions that come from the spec rather than the
  TypeScript source say so in their doc comment.
* Object identity of recorders inside one `SkeletonCacheItemInfo` is their
  animation name (the source keys `animationsCache` by animation name, so a
  context never holds two recorders with the same name);
  `curAnimationCache` and the listener subscription are stored as the
  recorder's name.  Pose-engine instances carry a numeric identity
  (`instanceId`) so that allocation ("new spine.SkeletonInstance()") and
  disposal ("spine.wasmUtil.destroySpineInstance") are observable.
-/

/-- Source constant `MaxCacheTime = 30` (seconds of simulated time). -/
def MaxCacheTime : ℚ := 30

/-- Source constant `FrameTime = 1 / 60` (fixed tick, seconds). -/
def FrameTime : ℚ := 1 / 60

/-- Modelled from the spec: the part of `spine.SkeletonData` this module
reads — the animation list, each animation exposing a name and a duration
in seconds (spec §6: "query an animation's duration by name"). -/
def SkelData : Type := List (String × ℚ)

/-- Modelled from the spec: one baked `AnimationFrame` snapshot.  The
source copies the engine's render buffer and bone transforms
(`updateRenderData`); the snapshot's payload is opaque to the cache logic,
so it is modelled as the engine state it was copied from (which animation
was playing and how many ticks had been simulated). -/
structure AnimationFrame where
  anim : Option String
  tickCount : ℕ
deriving DecidableEq

/-- State of one `AnimationCache` (source lines 76-306) together with its
privately owned pose-engine instance (`_instance`).  Field name mapping:
`instanceId`/`engineCurrent`/`engineTicks` model `_instance`,
`dataAnimations` models `_skeletonData.animations`, `privateMode` is
`_privateMode`, `curIndexPriv` is the protected `_curIndex`,
`isCompletedPriv` is the protected `_isCompleted`, `maxFrameIdex` is
`_maxFrameIdex` (source spelling kept), `frameIdx` is `_frameIdx`,
`inited` is `_inited`, `invalid` is `_invalid`, `animationName` is
`_animationName`; `isCompleted`, `totalTime` and `frames` are the public
fields of the same names.  `warnings` records the diagnostics emitted via
`warn` (the offending animation name). -/
structure AnimationCache where
  instanceId : ℕ
  dataAnimations : List (String × ℚ)
  engineCurrent : Option String
  engineTicks : ℕ
  privateMode : Bool
  curIndexPriv : ℤ
  isCompletedPriv : Bool
  maxFrameIdex : ℕ
  frameIdx : ℤ
  inited : Bool
  invalid : Bool
  animationName : Option String
  isCompleted : Bool
  totalTime : ℚ
  frames : List (Option AnimationFrame)
  warnings : List String

/-- Association-list lookup (JS property read `obj[key]`). -/
def assocGet {κ α : Type} [DecidableEq κ] : List (κ × α) → κ → Option α
  | [], _ => none
  | (k, v) :: t, key => if k = key then some v else assocGet t key

/-- Association-list write (JS property assignment `obj[key] = v`:
replace the existing entry, else append a new one). -/
def assocSet {κ α : Type} [DecidableEq κ] : List (κ × α) → κ → α → List (κ × α)
  | [], key, v => [(key, v)]
  | (k, w) :: t, key, v => if k = key then (key, v) :: t else (k, w) :: assocSet t key v

/-- Association-list delete (JS `delete obj[key]`). -/
def assocDelete {κ α : Type} [DecidableEq κ] : List (κ × α) → κ → List (κ × α)
  | [], _ => []
  | (k, w) :: t, key => if k = key then assocDelete t key else (k, w) :: assocDelete t key

/-- `animations.forEach((element) => { if (element.name === n) animation = element; })`
keeps the LAST matching element, so this lookup returns the last match. -/
def lookupLast : List (String × ℚ) → String → Option ℚ
  | [], _ => none
  | (k, v) :: t, n =>
    match lookupLast t n with
    | some w => some w
    | none => if k = n then some v else none

/-- JS array element assignment `a[i] = v` for a numeric index `i ≥ 0`:
overwrite inside the current length, else pad with holes and append. -/
def jsSet (l : List (Option AnimationFrame)) (i : ℕ) (v : AnimationFrame) :
    List (Option AnimationFrame) :=
  if i < l.length then l.set i (some v)
  else l ++ List.replicate (i - l.length) none ++ [some v]

/-- JS array element read `a[i]`: `undefined` (here `none`) outside the
current length or at a hole. -/
def jsGet (l : List (Option AnimationFrame)) (i : ℕ) : Option AnimationFrame :=
  (l.get? i).join

/-- JS `a.length = n`: truncate, or extend with holes. -/
def jsSetLength (l : List (Option AnimationFrame)) (n : ℕ) : List (Option AnimationFrame) :=
  if n ≤ l.length then l.take n else l ++ List.replicate (n - l.length) none

/-- Does `l` start with `m`? (helper for the substring test). -/
def startsWithL : List Char → List Char → Bool
  | _, [] => true
  | [], _ :: _ => false
  | a :: l, b :: m => a = b && startsWithL l m

/-- JS `String.prototype.includes`: does `l` contain `m` as a contiguous
run? -/
def listContains : List Char → List Char → Bool
  | [], m => startsWithL [] m
  | a :: t, m => startsWithL (a :: t) m || listContains t m

/-- Modelled from the spec (§6 "set current animation by name on a track,
non-looping"): `_instance.setAnimation(0, name, false)`.  A known name
starts that animation from time zero; an unknown name clears the track
(the wasm wrapper fails softly — spec §7 records that baking never
raises). -/
def engineSetAnimation (c : AnimationCache) (name : String) : AnimationCache :=
  if (lookupLast c.dataAnimations name).isSome then
    { c with engineCurrent := some name, engineTicks := 0 }
  else
    { c with engineCurrent := none }

/-- Modelled from the spec (§6 "a completion callback … invoked when a
named animation finishes a non-looping pass on its track"): after
`_instance.updateAnimation(FrameTime)` the completion event carries the
track's animation name exactly when the accumulated animation time
(`engineTicks · FrameTime`) has reached that animation's duration. -/
def engineCompleteName (c : AnimationCache) : Option String :=
  match c.engineCurrent with
  | none => none
  | some a =>
    match lookupLast c.dataAnimations a with
    | none => none
    | some d => if d ≤ (c.engineTicks : ℚ) * FrameTime then some a else none

/-- Modelled from the spec (§6 "retrieve the resulting render buffer …
and the current bone list"): the snapshot `updateRenderData` copies out of
the engine, represented by the engine state it reflects. -/
def engineRender (c : AnimationCache) : AnimationFrame :=
  { anim := c.engineCurrent, tickCount := c.engineTicks }

/-- The `AnimationCache` constructor (source lines 95-103): fresh logical
state plus a newly allocated pose-engine instance (`new
spine.SkeletonInstance()`), whose identity is the caller-supplied fresh
`iid`. -/
def mkAnimationCache (iid : ℕ) (data : SkelData) : AnimationCache :=
  { instanceId := iid
    dataAnimations := data
    engineCurrent := none
    engineTicks := 0
    privateMode := false
    curIndexPriv := -1
    isCompletedPriv := false
    maxFrameIdex := 0
    frameIdx := -1
    inited := false
    invalid := true
    animationName := none
    isCompleted := false
    totalTime := 0
    frames := []
    warnings := [] }

/-- `AnimationCache.init` (source lines 105-109).  The `_skeletonInfo`
back-pointer is implicit: context-level operations below thread the
owning `SkeletonCacheItemInfo` explicitly. -/
def initCache (c : AnimationCache) (animationName : String) : AnimationCache :=
  { c with inited := true, animationName := some animationName }

/-- `AnimationCache.setAnimation` (source lines 119-134): find the
animation (last `forEach` match wins); unknown names only log a
diagnostic; known names set `_maxFrameIdex = Math.floor(duration /
FrameTime)` clamped up to `1`, then start the engine on that animation. -/
def setAnimation (c : AnimationCache) (animationName : String) : AnimationCache :=
  match lookupLast c.dataAnimations animationName with
  | none => { c with warnings := c.warnings ++ [animationName] }
  | some duration =>
    let m : ℤ := ⌊duration / FrameTime⌋
    let mfi : ℕ := if m ≤ 0 then 1 else m.toNat
    engineSetAnimation { c with maxFrameIdex := mfi } animationName

/-- `AnimationCache.getFrame` (source lines 153-156):
`frames[frameIdx % _maxFrameIdex]`.  When `_maxFrameIdex = 0` the JS
modulo is `NaN` and the array read yields `undefined`, modelled as
`none`. -/
def getFrame (c : AnimationCache) (frameIdx : ℕ) : Option AnimationFrame :=
  if c.maxFrameIdex = 0 then none
  else jsGet c.frames (frameIdx % c.maxFrameIdex)

/-- `AnimationCache.invalidAnimationFrames` (source lines 158-162). -/
def invalidAnimationFrames (c : AnimationCache) : AnimationCache :=
  { c with curIndexPriv := -1, isCompletedPriv := false, frames := [] }

/-- `AnimationCache.invalidAllFrame` (source lines 285-288).  Note: it
only resets the two flags; `frames` is left untouched. -/
def invalidAllFrame (c : AnimationCache) : AnimationCache :=
  { c with isCompleted := false, invalid := true }

/-- `AnimationCache.clear` (source lines 298-301). -/
def clearCache (c : AnimationCache) : AnimationCache :=
  invalidAllFrame { c with inited := false }

/-- `AnimationCache.needToUpdate` (source lines 271-275). -/
def needToUpdate (c : AnimationCache) (toFrameIdx : Option ℤ) : Prop :=
  ¬c.isCompleted = true ∧ c.totalTime < MaxCacheTime ∧
    (match toFrameIdx with
     | none => True
     | some t => c.frameIdx < t)

instance needToUpdate.dec (c : AnimationCache) (toFrameIdx : Option ℤ) :
    Decidable (needToUpdate c toFrameIdx) := by
  unfold needToUpdate
  cases toFrameIdx
  · exact instDecidableAnd
  · exact instDecidableAnd

/-- The per-skeleton shared context `SkeletonCacheItemInfo` (source lines
48-55).  The engine-side members (`skeleton`, `clipper`, `state`) carry no
state observed by the cache logic and are omitted; `listener` is
represented by its single `complete` subscriber (`listenerBoundTo`, the
name of the recorder whose `bind` ran last, `none` after `unbind`).
`curAnimationCache` holds the active recorder's name. -/
structure SkeletonCacheItemInfo where
  animationsCache : List (String × AnimationCache)
  curAnimationCache : Option String
  listenerBoundTo : Option String

/-- Read a recorder of the context by name. -/
def getCache (s : SkeletonCacheItemInfo) (n : String) : Option AnimationCache :=
  assocGet s.animationsCache n

/-- Store a recorder of the context under its name. -/
def setCache (s : SkeletonCacheItemInfo) (n : String) (c : AnimationCache) :
    SkeletonCacheItemInfo :=
  { s with animationsCache := assocSet s.animationsCache n c }

/-- The `complete` handler installed by `AnimationCache.bind` (source
lines 257-265): the currently subscribed recorder sets its own
`isCompleted` when the completed entry's animation name matches its
`_animationName`. -/
def fireComplete (s : SkeletonCacheItemInfo) (a : String) : SkeletonCacheItemInfo :=
  match s.listenerBoundTo with
  | none => s
  | some b =>
    match getCache s b with
    | none => s
    | some cb =>
      if cb.animationName = some a then setCache s b { cb with isCompleted := true } else s

/-- One iteration of the `do { … }` body of `updateToFrame` (source lines
140-149) for the recorder named `n`: advance `_frameIdx` and `totalTime`,
step the engine one tick (which may invoke the shared listener's
`complete` handler), snapshot the render data into `frames[_frameIdx]`,
and flag completion once `_frameIdx >= _maxFrameIdex`. -/
def stepBody (s : SkeletonCacheItemInfo) (n : String) : SkeletonCacheItemInfo :=
  match getCache s n with
  | none => s
  | some c0 =>
    let c1 : AnimationCache :=
      { c0 with
        frameIdx := c0.frameIdx + 1
        totalTime := c0.totalTime + FrameTime
        engineTicks := c0.engineTicks + 1 }
    let s1 := setCache s n c1
    let s2 := match engineCompleteName c1 with
      | some a => fireComplete s1 a
      | none => s1
    match getCache s2 n with
    | none => s2
    | some c2 =>
      let c3 : AnimationCache :=
        { c2 with frames := jsSet c2.frames c2.frameIdx.toNat (engineRender c2) }
      let c4 : AnimationCache :=
        if (c3.maxFrameIdex : ℤ) ≤ c3.frameIdx then { c3 with isCompleted := true } else c3
      setCache s2 n c4

/-- The `do { … } while (this.needToUpdate(frameIdx))` loop of
`updateToFrame`, as fuelled recursion.  The fuel is only a termination
device: one iteration adds `FrameTime` to `totalTime` and the guard
requires `totalTime < MaxCacheTime`, so from any state with
`totalTime ≥ 0` (an invariant of every reachable state — `begin` resets
it to `0` and iterations only add) at most `1800` iterations run before
the guard fails, and `maxBakeSteps = 1801` fuel is never exhausted. -/
def updateLoop : ℕ → SkeletonCacheItemInfo → String → Option ℤ → SkeletonCacheItemInfo
  | 0, s, _, _ => s
  | f + 1, s, n, tgt =>
    let s1 := stepBody s n
    match getCache s1 n with
    | none => s1
    | some c => if needToUpdate c tgt then updateLoop f s1 n tgt else s1

/-- Strict upper bound on the iterations of one `updateToFrame` loop. -/
def maxBakeSteps : ℕ := 1801

/-- Tail of `AnimationCache.begin` (source lines 235-244): restart the
engine on `_animationName` (a recorder is only begun after `init`, so the
name is present; an unknown name clears the track as in
`engineSetAnimation`), re-subscribe the completion listener (`bind`),
record this recorder as the context's current one, and reset the baking
counters. -/
def resetAndBind (s : SkeletonCacheItemInfo) (n : String) : SkeletonCacheItemInfo :=
  match getCache s n with
  | none => s
  | some c =>
    let ce : AnimationCache :=
      match c.animationName with
      | some a => engineSetAnimation c a
      | none => { c with engineCurrent := none }
    let s1 := setCache s n
      { ce with frameIdx := -1, isCompleted := false, totalTime := 0, invalid := false }
    { s1 with curAnimationCache := some n, listenerBoundTo := some n }

/-- `AnimationCache.begin` (source lines 220-245), parameterised by the
handler used to flush the previous recorder in shared mode.  In the
source that handler is `preAnimationCache.updateToFrame(0)`; the mutual
recursion this creates is finite, because the inner call's own `begin`
sees `curAnimationCache === this` (the outer `begin` has not re-assigned
it yet) and therefore never arbitrates again.  `begin` below instantiates
the handler with that one-level unrolling. -/
def beginCore (prevHandler : SkeletonCacheItemInfo → String → SkeletonCacheItemInfo)
    (s : SkeletonCacheItemInfo) (n : String) : SkeletonCacheItemInfo :=
  match getCache s n with
  | none => s
  | some c =>
    if c.invalid = false then s
    else
      let s1 :=
        match s.curAnimationCache with
        | none => s
        | some p =>
          if p = n then s
          else
            match getCache s p with
            | none => s
            | some pc =>
              if c.privateMode then setCache s p (invalidAllFrame pc)
              else prevHandler s p
      resetAndBind s1 n

/-- The part of `updateToFrame` after its `this.begin()` call (source
lines 139-150): run the loop if the guard holds. -/
def updateAfterBegin (s : SkeletonCacheItemInfo) (n : String) (tgt : Option ℤ) :
    SkeletonCacheItemInfo :=
  match getCache s n with
  | none => s
  | some c => if needToUpdate c tgt then updateLoop maxBakeSteps s n tgt else s

/-- `preAnimationCache.updateToFrame(0)` as invoked from `begin` (source
line 232).  At this call site `curAnimationCache` is still `p` itself, so
the inner `begin` never reaches its arbitration branch and its
`prevHandler` is irrelevant (instantiated with the identity). -/
def updateToFrameAsPrev (s : SkeletonCacheItemInfo) (p : String) : SkeletonCacheItemInfo :=
  match getCache s p with
  | none => s
  | some c =>
    if c.inited = false then s
    else updateAfterBegin (beginCore (fun s0 _ => s0) s p) p (some 0)

/-- `AnimationCache.begin` (source lines 220-245). -/
def begin (s : SkeletonCacheItemInfo) (n : String) : SkeletonCacheItemInfo :=
  beginCore updateToFrameAsPrev s n

/-- `AnimationCache.updateToFrame` (source lines 136-151).  A `none`
target is the argument-less call (bake to completion or to the cap). -/
def updateToFrame (s : SkeletonCacheItemInfo) (n : String) (tgt : Option ℤ) :
    SkeletonCacheItemInfo :=
  match getCache s n with
  | none => s
  | some c =>
    if c.inited = false then s
    else updateAfterBegin (begin s n) n tgt

/-- `AnimationCache.end` (source lines 247-255): once no further
advancement is pending, drop the context's current-recorder reference,
trim `frames` to `_frameIdx + 1`, mark completion and unsubscribe the
listener.  (On a never-`init`ed recorder the source would throw on the
`_skeletonInfo!` assertion; theorems about `end` carry an `inited`
hypothesis.) -/
def endOp (s : SkeletonCacheItemInfo) (n : String) : SkeletonCacheItemInfo :=
  match getCache s n with
  | none => s
  | some c =>
    if needToUpdate c none then s
    else
      let c1 : AnimationCache :=
        { c with
          frames := jsSetLength c.frames (c.frameIdx + 1).toNat
          isCompleted := true }
      let s1 := setCache s n c1
      { s1 with curAnimationCache := none, listenerBoundTo := none }

/-- State of the registry singleton `SkeletonCache` (source lines
308-430).  `nextInstanceId` supplies the identity of the next pose-engine
instance a recorder constructor would allocate; `destroyedInstances`
records every instance passed to `spine.wasmUtil.destroySpineInstance`
(the recorder's `destory` — source spelling).  Pool keys
`` `${uuid}#${animationName}` `` are modelled as the character list of the
concatenated string. -/
structure SkeletonCacheState where
  privateMode : Bool
  skeletonCache : List (String × SkeletonCacheItemInfo)
  animationPool : List (List Char × AnimationCache)
  nextInstanceId : ℕ
  destroyedInstances : List ℕ

/-- The composite pool key `` `${uuid}#${animationName}` ``. -/
def mkPoolKey (uuid animationName : String) : List Char :=
  uuid.toList ++ '#' :: animationName.toList

/-- A freshly constructed `SkeletonCacheItemInfo` (source lines 360-377);
the engine-side members are constructed but hold no modelled state. -/
def emptyInfo : SkeletonCacheItemInfo :=
  { animationsCache := [], curAnimationCache := none, listenerBoundTo := none }

/-- `SkeletonCache.getSkeletonCache` (source lines 358-379): create the
per-uuid context on first request.  (The `skeletonData` argument only
feeds the engine-side members and is not otherwise observed.) -/
def getSkeletonCache (S : SkeletonCacheState) (uuid : String) : SkeletonCacheState :=
  match assocGet S.skeletonCache uuid with
  | some _ => S
  | none => { S with skeletonCache := assocSet S.skeletonCache uuid emptyInfo }

/-- `SkeletonCache.getAnimationCache` (source lines 381-385). -/
def getAnimationCache (S : SkeletonCacheState) (uuid animationName : String) :
    Option AnimationCache :=
  assocGet S.animationPool (mkPoolKey uuid animationName)

/-- `SkeletonCache.initAnimationCache` (source lines 387-411): `none` data
(`getRuntimeData()` falsy) or a missing context short-circuit to `null`;
otherwise reuse the context's recorder for this animation, or reclaim one
from the pool, or construct a fresh one (propagating the registry's
private-mode flag); finally `init` (called twice by the source for a
recorder that was not already in the context) and `setAnimation` run on
the returned recorder.  Returns the new registry state and the returned
recorder (whose stored copy in the context is identical). -/
def initAnimationCache (S : SkeletonCacheState) (uuid : String) (data : Option SkelData)
    (animationName : String) : SkeletonCacheState × Option AnimationCache :=
  match data with
  | none => (S, none)
  | some spData =>
    match assocGet S.skeletonCache uuid with
    | none => (S, none)
    | some info =>
      match assocGet info.animationsCache animationName with
      | some existing =>
        let ac := setAnimation (initCache existing animationName) animationName
        let info1 := { info with animationsCache := assocSet info.animationsCache animationName ac }
        ({ S with skeletonCache := assocSet S.skeletonCache uuid info1 }, some ac)
      | none =>
        let poolKey := mkPoolKey uuid animationName
        match assocGet S.animationPool poolKey with
        | some pooled =>
          let ac := setAnimation (initCache (initCache pooled animationName) animationName)
            animationName
          let info1 :=
            { info with animationsCache := assocSet info.animationsCache animationName ac }
          ({ S with
              skeletonCache := assocSet S.skeletonCache uuid info1
              animationPool := assocDelete S.animationPool poolKey }, some ac)
        | none =>
          let fresh := { mkAnimationCache S.nextInstanceId spData with privateMode := S.privateMode }
          let ac := setAnimation (initCache (initCache fresh animationName) animationName)
            animationName
          let info1 :=
            { info with animationsCache := assocSet info.animationsCache animationName ac }
          ({ S with
              skeletonCache := assocSet S.skeletonCache uuid info1
              nextInstanceId := S.nextInstanceId + 1 }, some ac)

/-- `SkeletonCache.removeSkeleton` (source lines 342-356): move every
recorder of the context into the pool under `` `${uuid}#${aniKey}` ``
(clearing it — which resets flags but keeps its buffers), then drop the
context.  Recorders are processed in the context's insertion order. -/
def removeSkeleton (S : SkeletonCacheState) (uuid : String) : SkeletonCacheState :=
  match assocGet S.skeletonCache uuid with
  | none => S
  | some info =>
    let pool := info.animationsCache.foldl
      (fun pool kv => assocSet pool (mkPoolKey uuid kv.1) (clearCache kv.2)) S.animationPool
    { S with animationPool := pool, skeletonCache := assocDelete S.skeletonCache uuid }

/-- `SkeletonCache.invalidAnimationCache` (source lines 330-340). -/
def invalidAnimationCache (S : SkeletonCacheState) (uuid : String) : SkeletonCacheState :=
  match assocGet S.skeletonCache uuid with
  | none => S
  | some info =>
    let info1 :=
      { info with animationsCache :=
          info.animationsCache.map (fun kv => (kv.1, invalidAllFrame kv.2)) }
    { S with skeletonCache := assocSet S.skeletonCache uuid info1 }

/-- One pass of the `for (const key in animationPool)` loop of
`destroyCachedAnimations` (source lines 413-429): keep the entries whose
key fails the filter; `destory` (and forget) the rest, in pool order. -/
def destroyPass (pred : List Char → Bool) :
    List (List Char × AnimationCache) → List (List Char × AnimationCache) × List ℕ
  | [] => ([], [])
  | kv :: rest =>
    let r := destroyPass pred rest
    if pred kv.1 then (r.1, kv.2.instanceId :: r.2) else (kv :: r.1, r.2)

/-- `SkeletonCache.destroyCachedAnimations` (source lines 413-429): with a
uuid, destroy every pooled recorder whose composite key CONTAINS the uuid
(`key.includes(uuid)`); with no argument, destroy all of them. -/
def destroyCachedAnimations (S : SkeletonCacheState) (uuid : Option String) :
    SkeletonCacheState :=
  match uuid with
  | some u =>
    let r := destroyPass (fun key => listContains key u.toList) S.animationPool
    { S with animationPool := r.1, destroyedInstances := S.destroyedInstances ++ r.2 }
  | none =>
    let r := destroyPass (fun _ => true) S.animationPool
    { S with animationPool := r.1, destroyedInstances := S.destroyedInstances ++ r.2 }

/-- `SkeletonCache.enablePrivateMode` (source lines 321-323). -/
def enablePrivateMode (S : SkeletonCacheState) : SkeletonCacheState :=
  { S with privateMode := true }

/-- `SkeletonCache.clear` (source lines 325-328). -/
def clearRegistry (S : SkeletonCacheState) : SkeletonCacheState :=
  { S with skeletonCache := [], animationPool := [] }

/-- Glue for driving a recorder that lives inside the registry: consumers
hold the recorder object and call `updateToFrame` on it; the recorder
mutates itself and its owning context in place.  In the value model this
is: apply the context-level operation to the uuid's context. -/
def updateToFrameOn (S : SkeletonCacheState) (uuid n : String) (tgt : Option ℤ) :
    SkeletonCacheState :=
  match assocGet S.skeletonCache uuid with
  | none => S
  | some info =>
    { S with skeletonCache := assocSet S.skeletonCache uuid (updateToFrame info n tgt) }

/-!
### Concrete fixtures used by the claim theorems

Skeleton data with two animations "a" and "b" of one second each
(`maxFrameIdex = 60`), a context holding one configured recorder per
animation, and the intermediate states those recorders pass through.  The
`…Start` states are assembled through the translated constructor/`init`/
`setAnimation` operations; the other states are the literal values the
operations produce (each is proved equal to the corresponding operation
result in the theorems below).
-/

def demoData : SkelData := [("a", 1), ("b", 1)]

/-- Shared-mode context: recorders for "a" and "b", nothing begun yet. -/
def c1Start : SkeletonCacheItemInfo :=
  { animationsCache :=
      [("a", setAnimation (initCache (mkAnimationCache 0 demoData) "a") "a"),
       ("b", setAnimation (initCache (mkAnimationCache 1 demoData) "b") "b")]
    curAnimationCache := none
    listenerBoundTo := none }

/-- Recorder "a" right after its `begin`. -/
def c1A1 : AnimationCache :=
  ⟨0, demoData, some "a", 0, false, -1, false, 60, -1, true, false, some "a", false, 0, [], []⟩

/-- Recorder "b" as configured (not yet begun). -/
def c1B0 : AnimationCache :=
  ⟨1, demoData, some "b", 0, false, -1, false, 60, -1, true, true, some "b", false, 0, [], []⟩

def c1Mid1 : SkeletonCacheItemInfo := ⟨[("a", c1A1), ("b", c1B0)], some "a", some "a"⟩

/-- Recorder "a" after baking frame 0 of its 60 frames. -/
def c1A2 : AnimationCache :=
  { c1A1 with
    engineTicks := 1
    frameIdx := 0
    totalTime := 1 / 60
    frames := [some ⟨some "a", 1⟩] }

def c1Mid2 : SkeletonCacheItemInfo := ⟨[("a", c1A2), ("b", c1B0)], some "a", some "a"⟩

def c1B1 : AnimationCache := { c1B0 with invalid := false }

def c1Final : SkeletonCacheItemInfo := ⟨[("a", c1A2), ("b", c1B1)], some "b", some "b"⟩

/-- Private-mode variant of `c1Start` (recorders carry
`_privateMode = true`, as `initAnimationCache` would set in a private
registry). -/
def c5Start : SkeletonCacheItemInfo :=
  { animationsCache :=
      [("a", setAnimation
          (initCache { mkAnimationCache 0 demoData with privateMode := true } "a") "a"),
       ("b", setAnimation
          (initCache { mkAnimationCache 1 demoData with privateMode := true } "b") "b")]
    curAnimationCache := none
    listenerBoundTo := none }

def c5A1 : AnimationCache := { c1A1 with privateMode := true }

def c5B0 : AnimationCache := { c1B0 with privateMode := true }

def c5Mid1 : SkeletonCacheItemInfo := ⟨[("a", c5A1), ("b", c5B0)], some "a", some "a"⟩

def c5A2 : AnimationCache := { c1A2 with privateMode := true }

def c5Mid2 : SkeletonCacheItemInfo := ⟨[("a", c5A2), ("b", c5B0)], some "a", some "a"⟩

/-- Recorder "a" after being preempted in private mode: flags reset,
frames retained. -/
def c5A2i : AnimationCache := { c5A2 with invalid := true }

def c5B1 : AnimationCache := { c5B0 with invalid := false }

def c5Final : SkeletonCacheItemInfo := ⟨[("a", c5A2i), ("b", c5B1)], some "b", some "b"⟩

/-- Animation of duration 1/40 s — one and a half ticks, so
`maxFrameIdex = 1` but the engine only signals completion during the
second tick. -/
def cxData : SkelData := [("w", 1 / 40)]

def cxStart : SkeletonCacheItemInfo :=
  { animationsCache := [("w", setAnimation (initCache (mkAnimationCache 0 cxData) "w") "w")]
    curAnimationCache := none
    listenerBoundTo := none }

def cxW1 : AnimationCache :=
  ⟨0, cxData, some "w", 0, false, -1, false, 1, -1, true, false, some "w", false, 0, [], []⟩

def cxMid1 : SkeletonCacheItemInfo := ⟨[("w", cxW1)], some "w", some "w"⟩

def cxW2 : AnimationCache :=
  { cxW1 with
    engineTicks := 1
    frameIdx := 0
    totalTime := 1 / 60
    frames := [some ⟨some "w", 1⟩] }

def cxMid2 : SkeletonCacheItemInfo := ⟨[("w", cxW2)], some "w", some "w"⟩

def cxW3 : AnimationCache :=
  { cxW2 with
    engineTicks := 2
    frameIdx := 1
    totalTime := 1 / 30
    isCompleted := true
    frames := [some ⟨some "w", 1⟩, some ⟨some "w", 2⟩] }

def cxMid3 : SkeletonCacheItemInfo := ⟨[("w", cxW3)], some "w", some "w"⟩

def cxFinal : SkeletonCacheItemInfo := ⟨[("w", cxW3)], none, none⟩

/-- Skeleton data that does NOT contain an animation named "x". -/
def c7Data : SkelData := [("w", 1)]

/-- A recorder initialised and configured for the unknown animation "x":
`setAnimation` only logged a diagnostic, `maxFrameIdex` kept its initial
`0`. -/
def c7Start : SkeletonCacheItemInfo :=
  { animationsCache := [("x", setAnimation (initCache (mkAnimationCache 0 c7Data) "x") "x")]
    curAnimationCache := none
    listenerBoundTo := none }

def c7X1 : AnimationCache :=
  ⟨0, c7Data, none, 0, false, -1, false, 0, -1, true, false, some "x", false, 0, [], ["x"]⟩

def c7Mid1 : SkeletonCacheItemInfo := ⟨[("x", c7X1)], some "x", some "x"⟩

def c7X2 : AnimationCache :=
  { c7X1 with
    engineTicks := 1
    frameIdx := 0
    isCompleted := true
    totalTime := 1 / 60
    frames := [some ⟨none, 1⟩] }

def c7Mid2 : SkeletonCacheItemInfo := ⟨[("x", c7X2)], some "x", some "x"⟩

/-- C6 pipeline: create context "u", create a recorder for "w", bake one
frame, remove the skeleton (recorder moves to the pool), re-create the
context and ask for the recorder again. -/
def c6S0 : SkeletonCacheState := ⟨false, [], [], 0, []⟩

def c6S1 : SkeletonCacheState := getSkeletonCache c6S0 "u"

def c6S2 : SkeletonCacheState := (initAnimationCache c6S1 "u" (some c7Data) "w").1

def c6S3 : SkeletonCacheState := updateToFrameOn c6S2 "u" "w" (some 0)

def c6S4 : SkeletonCacheState := removeSkeleton c6S3 "u"

def c6S5 : SkeletonCacheState := getSkeletonCache c6S4 "u"

def c6Res : SkeletonCacheState × Option AnimationCache :=
  initAnimationCache c6S5 "u" (some c7Data) "w"

def c6Rec0 : AnimationCache :=
  ⟨0, c7Data, some "w", 0, false, -1, false, 60, -1, true, true, some "w", false, 0, [], []⟩

def c6L2 : SkeletonCacheState := ⟨false, [("u", ⟨[("w", c6Rec0)], none, none⟩)], [], 1, []⟩

def c6RecA : AnimationCache := { c6Rec0 with invalid := false }

def c6CtxA : SkeletonCacheItemInfo := ⟨[("w", c6RecA)], some "w", some "w"⟩

def c6RecB : AnimationCache :=
  { c6RecA with
    engineTicks := 1
    frameIdx := 0
    totalTime := 1 / 60
    frames := [some ⟨some "w", 1⟩] }

def c6CtxB : SkeletonCacheItemInfo := ⟨[("w", c6RecB)], some "w", some "w"⟩

def c6L3 : SkeletonCacheState := ⟨false, [("u", c6CtxB)], [], 1, []⟩

/-- The recorder as it sits in the Recycle Pool: `clear`ed flags, but
`frames` and `frameIdx` untouched. -/
def c6RecP : AnimationCache := { c6RecB with inited := false, invalid := true }

def c6L4 : SkeletonCacheState := ⟨false, [], [(mkPoolKey "u" "w", c6RecP)], 1, []⟩

def c6L5 : SkeletonCacheState :=
  ⟨false, [("u", ⟨[], none, none⟩)], [(mkPoolKey "u" "w", c6RecP)], 1, []⟩

/-- The recorder `initAnimationCache` returns after reclaiming it from
the pool: re-`init`ed and re-configured, still carrying its stale
`frames` and `frameIdx`. -/
def c6RecOut : AnimationCache := { c6RecP with inited := true, engineTicks := 0 }

def c6LFinal : SkeletonCacheState :=
  ⟨false, [("u", ⟨[("w", c6RecOut)], none, none⟩)], [], 1, []⟩

/-- C9 fixture: two pooled recorders whose skeleton identities "a" and
"ab" are not substring-disjoint. -/
def c9S : SkeletonCacheState :=
  ⟨false, [],
   [(mkPoolKey "a" "w", mkAnimationCache 0 demoData),
    (mkPoolKey "ab" "w", mkAnimationCache 1 demoData)], 2, []⟩

def c9Res : SkeletonCacheState := destroyCachedAnimations c9S (some "a")

/-- C8 fixture: an actively baking recorder whose simulated time has
reached the 30-second cap. -/
def c8Rec : AnimationCache :=
  ⟨0, demoData, some "a", 1800, false, -1, false, 60, 1799, true, false, some "a", false, 30,
   [], []⟩

def c8S : SkeletonCacheItemInfo := ⟨[("a", c8Rec)], some "a", some "a"⟩

/-- C4 fixture: a completed two-frame recorder. -/
def c4Rec : AnimationCache :=
  ⟨0, demoData, none, 2, false, -1, false, 2, 1, true, false, some "a", true, 1 / 30,
   [some ⟨some "a", 1⟩, some ⟨some "a", 2⟩], []⟩

/-- Symbolic fixture for the unconfigured-recorder bake: the recorder
state right after `begin` on a recorder whose `setAnimation` failed
(engine track cleared, `maxFrameIdex = 0`). -/
def c7bCacheB (iid : ℕ) (data : List (String × ℚ)) (et : ℕ) (pm : Bool) (ci : ℤ)
    (icp : Bool) (n : String) (wa : List String) : AnimationCache :=
  ⟨iid, data, none, et, pm, ci, icp, 0, -1, true, false, some n, false, 0, [], wa⟩

/-- Symbolic fixture: the same recorder after the single loop iteration
of its bake — one frame, immediately completed. -/
def c7bCacheF (iid : ℕ) (data : List (String × ℚ)) (et : ℕ) (pm : Bool) (ci : ℤ)
    (icp : Bool) (n : String) (wa : List String) : AnimationCache :=
  ⟨iid, data, none, et + 1, pm, ci, icp, 0, 0, true, false, some n, true, 0 + FrameTime,
   [some ⟨none, et + 1⟩], wa⟩

/-!
### The uninterrupted full bake of a whole-tick animation (claim C3)

`c3Start k` is a context holding one configured recorder for an
animation "w" of duration `k/60` seconds (`k` whole ticks);
`bakedState k j` is the state after `begin` plus `j` loop iterations.
-/

def c3Data (k : ℕ) : SkelData := [("w", (k : ℚ) / 60)]

def c3Start (k : ℕ) : SkeletonCacheItemInfo :=
  { animationsCache := [("w", setAnimation (initCache (mkAnimationCache 0 (c3Data k)) "w") "w")]
    curAnimationCache := none
    listenerBoundTo := none }

def bakedFrame (j : ℕ) : AnimationFrame := ⟨some "w", j + 1⟩

def bakedCache (k j : ℕ) : AnimationCache :=
  ⟨0, c3Data k, some "w", j, false, -1, false, k, (j : ℤ) - 1, true, false, some "w",
   decide (k ≤ j), (j : ℚ) / 60, (List.range j).map (fun i => some (bakedFrame i)), []⟩

def bakedState (k j : ℕ) : SkeletonCacheItemInfo := ⟨[("w", bakedCache k j)], some "w", some "w"⟩

/-! ### Helper lemmas -/

theorem assocGet_assocSet_self {κ α : Type} [DecidableEq κ] (l : List (κ × α)) (k : κ) (v : α) :
    assocGet (assocSet l k v) k = some v := by
  induction l with
  | nil => simp [assocSet, assocGet]
  | cons hd t ih =>
    obtain ⟨k2, w⟩ := hd
    by_cases h : k2 = k
    · subst h; simp [assocSet, assocGet]
    · simp [assocSet, assocGet, h, ih]

theorem assocGet_assocSet_ne {κ α : Type} [DecidableEq κ] (l : List (κ × α)) (k k2 : κ) (v : α)
    (h : k2 ≠ k) : assocGet (assocSet l k v) k2 = assocGet l k2 := by
  induction l with
  | nil =>
    simp only [assocSet, assocGet]
    rw [if_neg (Ne.symm h)]
  | cons hd t ih =>
    obtain ⟨k3, w⟩ := hd
    by_cases h3 : k3 = k
    · subst h3
      simp only [assocSet, if_pos rfl, assocGet]
      rw [if_neg (Ne.symm h), if_neg (Ne.symm h)]
    · simp only [assocSet, if_neg h3, assocGet]
      by_cases h32 : k3 = k2
      · rw [if_pos h32, if_pos h32]
      · rw [if_neg h32, if_neg h32, ih]

theorem assocSet_assocSet_self {κ α : Type} [DecidableEq κ] (l : List (κ × α)) (k : κ)
    (v w : α) : assocSet (assocSet l k v) k w = assocSet l k w := by
  induction l with
  | nil => simp [assocSet]
  | cons hd t ih =>
    obtain ⟨k2, u⟩ := hd
    by_cases h : k2 = k
    · subst h; simp [assocSet]
    · simp [assocSet, h, ih]

theorem assocGet_assocDelete_self {κ α : Type} [DecidableEq κ] (l : List (κ × α)) (k : κ) :
    assocGet (assocDelete l k) k = none := by
  induction l with
  | nil => simp [assocDelete, assocGet]
  | cons hd t ih =>
    obtain ⟨k2, w⟩ := hd
    by_cases h : k2 = k
    · subst h; simp [assocDelete, ih]
    · simp [assocDelete, assocGet, h, ih]

theorem getCache_setCache_self (s : SkeletonCacheItemInfo) (n : String) (c : AnimationCache) :
    getCache (setCache s n c) n = some c :=
  assocGet_assocSet_self s.animationsCache n c

theorem getCache_setCache_ne (s : SkeletonCacheItemInfo) (n n2 : String) (c : AnimationCache)
    (h : n2 ≠ n) : getCache (setCache s n c) n2 = getCache s n2 :=
  assocGet_assocSet_ne s.animationsCache n n2 c h

theorem updateLoop_stop (f : ℕ) (s : SkeletonCacheItemInfo) (n : String) (tgt : Option ℤ)
    (c : AnimationCache) (h : getCache (stepBody s n) n = some c)
    (hc : ¬ needToUpdate c tgt) : updateLoop (f + 1) s n tgt = stepBody s n := by
  simp only [updateLoop, h]
  simp [hc]

theorem updateLoop_go (f : ℕ) (s : SkeletonCacheItemInfo) (n : String) (tgt : Option ℤ)
    (c : AnimationCache) (h : getCache (stepBody s n) n = some c)
    (hc : needToUpdate c tgt) :
    updateLoop (f + 1) s n tgt = updateLoop f (stepBody s n) n tgt := by
  simp only [updateLoop, h]
  simp [hc]

theorem engineSetAnimation_maxFrameIdex (c : AnimationCache) (n : String) :
    (engineSetAnimation c n).maxFrameIdex = c.maxFrameIdex := by
  unfold engineSetAnimation; split <;> rfl

theorem engineSetAnimation_frames (c : AnimationCache) (n : String) :
    (engineSetAnimation c n).frames = c.frames := by
  unfold engineSetAnimation; split <;> rfl

theorem engineSetAnimation_frameIdx (c : AnimationCache) (n : String) :
    (engineSetAnimation c n).frameIdx = c.frameIdx := by
  unfold engineSetAnimation; split <;> rfl

theorem engineSetAnimation_isCompleted (c : AnimationCache) (n : String) :
    (engineSetAnimation c n).isCompleted = c.isCompleted := by
  unfold engineSetAnimation; split <;> rfl

theorem engineSetAnimation_instanceId (c : AnimationCache) (n : String) :
    (engineSetAnimation c n).instanceId = c.instanceId := by
  unfold engineSetAnimation; split <;> rfl

theorem setAnimation_frames (c : AnimationCache) (n : String) :
    (setAnimation c n).frames = c.frames := by
  unfold setAnimation
  cases h : lookupLast c.dataAnimations n <;> simp [engineSetAnimation_frames]

theorem setAnimation_frameIdx (c : AnimationCache) (n : String) :
    (setAnimation c n).frameIdx = c.frameIdx := by
  unfold setAnimation
  cases h : lookupLast c.dataAnimations n <;> simp [engineSetAnimation_frameIdx]

theorem setAnimation_isCompleted (c : AnimationCache) (n : String) :
    (setAnimation c n).isCompleted = c.isCompleted := by
  unfold setAnimation
  cases h : lookupLast c.dataAnimations n <;> simp [engineSetAnimation_isCompleted]

theorem setAnimation_instanceId (c : AnimationCache) (n : String) :
    (setAnimation c n).instanceId = c.instanceId := by
  unfold setAnimation
  cases h : lookupLast c.dataAnimations n <;> simp [engineSetAnimation_instanceId]

/-- C2: for every animation whose duration `d` is known to the recorder's
skeleton data, `setAnimation` sets the maximum frame index to
`max 1 ⌊d / (1/60)⌋`. -/
theorem c2_maxFrameIndex (c : AnimationCache) (name : String) (d : ℚ)
    (h : lookupLast c.dataAnimations name = some d) :
    ((setAnimation c name).maxFrameIdex : ℤ) = max 1 ⌊d / ((1 : ℚ) / 60)⌋ := by
  unfold setAnimation
  rw [h]
  simp only [engineSetAnimation_maxFrameIdex]
  have hft : FrameTime = (1 : ℚ) / 60 := rfl
  rw [hft]
  by_cases hm : ⌊d / ((1 : ℚ) / 60)⌋ ≤ 0
  · rw [if_pos hm]
    omega
  · rw [if_neg hm]
    push_cast [Int.toNat_of_nonneg (by omega : (0:ℤ) ≤ ⌊d / ((1 : ℚ) / 60)⌋)]
    omega

theorem c2_witness :
    lookupLast (mkAnimationCache 0 demoData).dataAnimations "a" = some 1 ∧
    ((setAnimation (mkAnimationCache 0 demoData) "a").maxFrameIdex : ℤ) =
      max 1 ⌊(1 : ℚ) / ((1 : ℚ) / 60)⌋ :=
  ⟨rfl, c2_maxFrameIndex (mkAnimationCache 0 demoData) "a" 1 rfl⟩

/-- C4: for a completed recorder with `maxFrameIdex ≥ 1`, `getFrame` is
periodic with period `maxFrameIdex` and reads `frames[i % maxFrameIdex]`. -/
theorem c4_wraparound (c : AnimationCache) (i k : ℕ)
    (hc : c.isCompleted = true) (hm : 1 ≤ c.maxFrameIdex) :
    getFrame c (i + k * c.maxFrameIdex) = getFrame c i ∧
    getFrame c i = (c.frames.get? (i % c.maxFrameIdex)).join := by
  have hm0 : c.maxFrameIdex ≠ 0 := by omega
  unfold getFrame jsGet
  rw [if_neg hm0, if_neg hm0, Nat.add_mul_mod_self_right]
  exact ⟨rfl, rfl⟩

theorem c4_witness :
    c4Rec.isCompleted = true ∧ 1 ≤ c4Rec.maxFrameIdex ∧
    (getFrame c4Rec (3 + 2 * c4Rec.maxFrameIdex) = getFrame c4Rec 3 ∧
     getFrame c4Rec 3 = (c4Rec.frames.get? (3 % c4Rec.maxFrameIdex)).join) :=
  ⟨rfl, by norm_num [c4Rec], c4_wraparound c4Rec 3 2 rfl (by norm_num [c4Rec])⟩

/-- C10: a recorder whose animation was never successfully configured
(`maxFrameIdex` still `0`) yields no frame from `getFrame` at any index
(the JS modulo by zero is `NaN`). -/
theorem c10_mod_zero (c : AnimationCache) (i : ℕ) (h : c.maxFrameIdex = 0) :
    getFrame c i = none := by
  unfold getFrame
  rw [if_pos h]

theorem c10_witness :
    (mkAnimationCache 0 demoData).maxFrameIdex = 0 ∧
    getFrame (mkAnimationCache 0 demoData) 7 = none :=
  ⟨rfl, c10_mod_zero (mkAnimationCache 0 demoData) 7 rfl⟩

/-- C8: once `totalTime` has reached the 30-second cap, `updateToFrame`
leaves the recorder (and the whole context) unchanged — no frame is ever
appended — and the following `end` forces `isCompleted = true` even
though no completion was ever signalled. -/
theorem c8_cap (s : SkeletonCacheItemInfo) (n : String) (c : AnimationCache) (tgt : Option ℤ)
    (h : getCache s n = some c) (hinit : c.inited = true) (hinv : c.invalid = false)
    (hcap : MaxCacheTime ≤ c.totalTime) :
    updateToFrame s n tgt = s ∧
    ∃ c2, getCache (endOp s n) n = some c2 ∧ c2.isCompleted = true := by
  have hnu : ∀ t, ¬ needToUpdate c t := fun t hn => absurd hn.2.1 (not_lt.mpr hcap)
  have hbegin : begin s n = s := by
    unfold begin beginCore
    rw [h]
    simp [hinv]
  constructor
  · unfold updateToFrame
    rw [h]
    simp only [hinit]
    rw [hbegin]
    unfold updateAfterBegin
    rw [h]
    simp [hnu tgt]
  · unfold endOp
    simp only [h]
    rw [if_neg (hnu none)]
    exact ⟨_, getCache_setCache_self s n _, rfl⟩

theorem c8_witness :
    getCache c8S "a" = some c8Rec ∧ MaxCacheTime ≤ c8Rec.totalTime ∧
    (updateToFrame c8S "a" none = c8S ∧
     ∃ c2, getCache (endOp c8S "a") "a" = some c2 ∧ c2.isCompleted = true) :=
  ⟨rfl, by norm_num [c8Rec, MaxCacheTime],
   c8_cap c8S "a" c8Rec none rfl rfl rfl (by norm_num [c8Rec, MaxCacheTime])⟩

/-- C5 (amended): beginning an invalidated recorder in private mode
invalidates the previous active recorder immediately — its `invalid` flag
is set and `isCompleted` cleared, so its own next `begin` rebakes from
scratch — but its cached `frames` array is retained, not emptied. -/
theorem c5_amended (s : SkeletonCacheItemInfo) (r p : String) (c pc : AnimationCache)
    (hr : getCache s r = some c) (hinv : c.invalid = true) (hpriv : c.privateMode = true)
    (hcur : s.curAnimationCache = some p) (hne : p ≠ r) (hp : getCache s p = some pc) :
    getCache (begin s r) p = some (invalidAllFrame pc) ∧
    (invalidAllFrame pc).invalid = true ∧
    (invalidAllFrame pc).isCompleted = false ∧
    (invalidAllFrame pc).frames = pc.frames ∧
    (begin s r).curAnimationCache = some r := by
  have hbody : begin s r = resetAndBind (setCache s p (invalidAllFrame pc)) r := by
    unfold begin beginCore
    simp only [hr, hinv, hcur, hp, hpriv]
    rw [if_neg (by simp), if_neg hne]
    simp
  have hgr : getCache (setCache s p (invalidAllFrame pc)) r = some c := by
    rw [getCache_setCache_ne _ _ _ _ (Ne.symm hne)]
    exact hr
  constructor
  · rw [hbody]
    unfold resetAndBind
    simp only [hgr]
    show getCache (setCache (setCache s p (invalidAllFrame pc)) r _) p = _
    rw [getCache_setCache_ne _ _ _ _ hne]
    exact getCache_setCache_self s p _
  refine ⟨rfl, rfl, rfl, ?_⟩
  rw [hbody]
  unfold resetAndBind
  simp only [hgr]

theorem c5_amended_witness :
    getCache c5Mid2 "b" = some c5B0 ∧ c5B0.privateMode = true ∧
    (getCache (begin c5Mid2 "b") "a" = some (invalidAllFrame c5A2) ∧
     (invalidAllFrame c5A2).invalid = true ∧
     (invalidAllFrame c5A2).isCompleted = false ∧
     (invalidAllFrame c5A2).frames = c5A2.frames ∧
     (begin c5Mid2 "b").curAnimationCache = some "b") :=
  ⟨rfl, rfl,
   c5_amended c5Mid2 "b" "a" c5B0 c5A2 rfl rfl rfl rfl (by decide) rfl⟩

/-- C6 (amended): once the context exists again, `initAnimationCache`
reclaims the pooled recorder — it is removed from the pool and no new
pose-engine instance is allocated — with `isCompleted = false`, but its
`frames` and `frameIdx` keep their pre-pooling values instead of being
reset to empty and `-1`. -/
theorem c6_amended (S : SkeletonCacheState) (uuid name : String) (spData : SkelData)
    (info : SkeletonCacheItemInfo) (pc : AnimationCache)
    (hinfo : assocGet S.skeletonCache uuid = some info)
    (hnorec : assocGet info.animationsCache name = none)
    (hpool : assocGet S.animationPool (mkPoolKey uuid name) = some pc)
    (hcomp : pc.isCompleted = false) :
    ∃ S2 ac, initAnimationCache S uuid (some spData) name = (S2, some ac) ∧
      ac.instanceId = pc.instanceId ∧ S2.nextInstanceId = S.nextInstanceId ∧
      ac.isCompleted = false ∧ ac.frames = pc.frames ∧ ac.frameIdx = pc.frameIdx ∧
      assocGet S2.animationPool (mkPoolKey uuid name) = none := by
  have hstep : initAnimationCache S uuid (some spData) name =
      ({ S with
         skeletonCache := assocSet S.skeletonCache uuid { info with animationsCache := assocSet info.animationsCache name (setAnimation (initCache (initCache pc name) name) name) }
         animationPool := assocDelete S.animationPool (mkPoolKey uuid name) },
       some (setAnimation (initCache (initCache pc name) name) name)) := by
    unfold initAnimationCache
    simp only [hinfo, hnorec, hpool]
  refine ⟨_, _, hstep, ?_, rfl, ?_, ?_, ?_, ?_⟩
  · rw [setAnimation_instanceId]; rfl
  · rw [setAnimation_isCompleted]; exact hcomp
  · rw [setAnimation_frames]; rfl
  · rw [setAnimation_frameIdx]; rfl
  · exact assocGet_assocDelete_self S.animationPool (mkPoolKey uuid name)

theorem c6_amended_witness :
    assocGet c6L5.animationPool (mkPoolKey "u" "w") = some c6RecP ∧
    (∃ S2 ac, initAnimationCache c6L5 "u" (some c7Data) "w" = (S2, some ac) ∧
      ac.instanceId = c6RecP.instanceId ∧ S2.nextInstanceId = c6L5.nextInstanceId ∧
      ac.isCompleted = false ∧ ac.frames = c6RecP.frames ∧ ac.frameIdx = c6RecP.frameIdx ∧
      assocGet S2.animationPool (mkPoolKey "u" "w") = none) :=
  ⟨rfl, c6_amended c6L5 "u" "w" c7Data ⟨[], none, none⟩ c6RecP rfl rfl rfl rfl⟩

theorem destroyPass_lookup (pred : List Char → Bool) (l : List (List Char × AnimationCache))
    (key : List Char) :
    assocGet (destroyPass pred l).1 key =
      (if pred key then none else assocGet l key) := by
  induction l with
  | nil => simp [destroyPass, assocGet]
  | cons kv t ih =>
    obtain ⟨k2, v⟩ := kv
    by_cases hp : pred k2
    · simp only [destroyPass, hp, if_true]
      by_cases hk : k2 = key
      · subst hk
        rw [ih, if_pos hp]
        rw [if_pos hp]
      · rw [ih]
        simp only [assocGet, if_neg hk]
    · simp only [destroyPass, hp, if_false, assocGet]
      by_cases hk : k2 = key
      · subst hk
        rw [if_pos rfl, if_neg (by simp [hp]), if_pos rfl]
      · rw [if_neg hk, if_neg hk, ih]

theorem startsWithL_append (l m : List Char) : startsWithL (l ++ m) l = true := by
  induction l with
  | nil => cases m <;> rfl
  | cons a t ih => simp [startsWithL, ih]

theorem listContains_of_startsWithL (l m : List Char) (h : startsWithL l m = true) :
    listContains l m = true := by
  cases l with
  | nil => exact h
  | cons a t => simp [listContains, h]

/-- C9 (amended): `destroyCachedAnimations(uuid)` disposes and removes
exactly the pooled recorders whose composite key `id2#name` contains
`uuid` as a substring — all recorders pooled under `uuid` itself, but
also those of any other identity whose composite key happens to contain
`uuid`. -/
theorem c9_amended (S : SkeletonCacheState) (u : String) (key : List Char) (name : String) :
    assocGet (destroyCachedAnimations S (some u)).animationPool key =
      (if listContains key u.toList then none else assocGet S.animationPool key) ∧
    listContains (mkPoolKey u name) u.toList = true := by
  constructor
  · unfold destroyCachedAnimations
    exact destroyPass_lookup _ S.animationPool key
  · exact listContains_of_startsWithL _ _ (by
      unfold mkPoolKey
      exact startsWithL_append u.toList ('#' :: name.toList))

theorem c1_step1 : begin c1Start "a" = c1Mid1 := by
  norm_num +decide [begin, beginCore, resetAndBind, engineSetAnimation, getCache, setCache,
    assocGet, assocSet, c1Start, demoData, setAnimation, initCache, mkAnimationCache,
    lookupLast, FrameTime, c1Mid1, c1A1, c1B0]

theorem c1_step2 : stepBody c1Mid1 "a" = c1Mid2 := by
  norm_num +decide [stepBody, fireComplete, engineCompleteName, engineRender, jsSet, getCache,
    setCache, assocGet, assocSet, c1Mid1, c1Mid2, c1A1, c1A2, c1B0, demoData, lookupLast,
    FrameTime]

theorem c1_step3 : updateToFrame c1Start "a" (some 0) = c1Mid2 := by
  have h0 : updateToFrame c1Start "a" (some 0) =
      updateAfterBegin (begin c1Start "a") "a" (some 0) := rfl
  rw [h0, c1_step1]
  have hg : getCache c1Mid1 "a" = some c1A1 := rfl
  simp only [updateAfterBegin, hg]
  rw [if_pos (show needToUpdate c1A1 (some 0) by
    norm_num [needToUpdate, c1A1, MaxCacheTime])]
  rw [show maxBakeSteps = 1800 + 1 from rfl]
  rw [updateLoop_stop 1800 c1Mid1 "a" (some 0) c1A2 (by rw [c1_step2]; rfl)
    (by norm_num [needToUpdate, c1A2, c1A1])]
  exact c1_step2

theorem c1_step4 : begin c1Mid2 "b" = c1Final := by
  norm_num +decide [begin, beginCore, updateToFrameAsPrev, updateAfterBegin, resetAndBind,
    needToUpdate, engineSetAnimation, getCache, setCache, assocGet, assocSet, c1Mid2, c1Final,
    c1A2, c1A1, c1B0, c1B1, demoData, lookupLast, FrameTime, MaxCacheTime]

/-- C1 (code evaluation): in shared mode, with "a" the active recorder
having baked one frame of its sixty, `begin` on "b" leaves "a"
incomplete with a single frame — the source advances the predecessor by
`updateToFrame(0)`, which cannot play it to the end. -/
theorem c1_code_evaluation :
    (getCache (begin (updateToFrame c1Start "a" (some 0)) "b") "a").map
      (fun c => (c.isCompleted, c.frames.length, c.maxFrameIdex)) = some (false, 1, 60) ∧
    (begin (updateToFrame c1Start "a" (some 0)) "b").curAnimationCache = some "b" := by
  rw [c1_step3, c1_step4]
  exact ⟨rfl, rfl⟩

theorem c5_step1 : begin c5Start "a" = c5Mid1 := by
  norm_num +decide [begin, beginCore, resetAndBind, engineSetAnimation, getCache, setCache,
    assocGet, assocSet, c5Start, demoData, setAnimation, initCache, mkAnimationCache,
    lookupLast, FrameTime, c5Mid1, c5A1, c5B0, c1A1, c1B0]

theorem c5_step2 : stepBody c5Mid1 "a" = c5Mid2 := by
  norm_num +decide [stepBody, fireComplete, engineCompleteName, engineRender, jsSet, getCache,
    setCache, assocGet, assocSet, c5Mid1, c5Mid2, c5A1, c5A2, c5B0, c1A1, c1A2, c1B0,
    demoData, lookupLast, FrameTime]

theorem c5_step3 : updateToFrame c5Start "a" (some 0) = c5Mid2 := by
  have h0 : updateToFrame c5Start "a" (some 0) =
      updateAfterBegin (begin c5Start "a") "a" (some 0) := rfl
  rw [h0, c5_step1]
  have hg : getCache c5Mid1 "a" = some c5A1 := rfl
  simp only [updateAfterBegin, hg]
  rw [if_pos (show needToUpdate c5A1 (some 0) by
    norm_num [needToUpdate, c5A1, c1A1, MaxCacheTime])]
  rw [show maxBakeSteps = 1800 + 1 from rfl]
  rw [updateLoop_stop 1800 c5Mid1 "a" (some 0) c5A2 (by rw [c5_step2]; rfl)
    (by norm_num [needToUpdate, c5A2, c1A2, c1A1])]
  exact c5_step2

theorem c5_step4 : begin c5Mid2 "b" = c5Final := by
  norm_num +decide [begin, beginCore, invalidAllFrame, resetAndBind, engineSetAnimation,
    getCache, setCache, assocGet, assocSet, c5Mid2, c5Final, c5A2, c5A2i, c5B0, c5B1, c1A2,
    c1A1, c1B0, demoData, lookupLast, FrameTime]

/-- C5 (counterexample): in private mode, right after "b" preempts the
active recorder "a", recorder "a" still holds its one cached frame — its
frames array is NOT emptied (only the flags are reset). -/
theorem c5_counterexample :
    (getCache (begin (updateToFrame c5Start "a" (some 0)) "b") "a").map
      (fun c => (c.frames.length, c.invalid, c.isCompleted)) = some (1, true, false) := by
  rw [c5_step3, c5_step4]
  rfl

theorem cx_step1 : begin cxStart "w" = cxMid1 := by
  norm_num +decide [begin, beginCore, resetAndBind, engineSetAnimation, getCache, setCache,
    assocGet, assocSet, cxStart, cxData, setAnimation, initCache, mkAnimationCache,
    lookupLast, FrameTime, cxMid1, cxW1]

theorem cx_step2 : stepBody cxMid1 "w" = cxMid2 := by
  norm_num +decide [stepBody, fireComplete, engineCompleteName, engineRender, jsSet, getCache,
    setCache, assocGet, assocSet, cxMid1, cxMid2, cxW1, cxW2, cxData, lookupLast, FrameTime]

theorem cx_step3 : stepBody cxMid2 "w" = cxMid3 := by
  norm_num +decide [stepBody, fireComplete, engineCompleteName, engineRender, jsSet, getCache,
    setCache, assocGet, assocSet, cxMid2, cxMid3, cxW1, cxW2, cxW3, cxData, lookupLast,
    FrameTime]

theorem cx_step4 : updateToFrame cxStart "w" none = cxMid3 := by
  have h0 : updateToFrame cxStart "w" none =
      updateAfterBegin (begin cxStart "w") "w" none := rfl
  rw [h0, cx_step1]
  have hg : getCache cxMid1 "w" = some cxW1 := rfl
  simp only [updateAfterBegin, hg]
  rw [if_pos (show needToUpdate cxW1 none by
    norm_num [needToUpdate, cxW1, MaxCacheTime])]
  rw [show maxBakeSteps = 1800 + 1 from rfl]
  rw [updateLoop_go 1800 cxMid1 "w" none cxW2 (by rw [cx_step2]; rfl)
    (by norm_num [needToUpdate, cxW2, cxW1, MaxCacheTime])]
  rw [cx_step2]
  rw [show (1800 : ℕ) = 1799 + 1 from rfl]
  rw [updateLoop_stop 1799 cxMid2 "w" none cxW3 (by rw [cx_step3]; rfl)
    (by norm_num [needToUpdate, cxW3, cxW2, cxW1])]
  exact cx_step3

theorem cx_step5 : endOp cxMid3 "w" = cxFinal := by
  norm_num +decide [endOp, needToUpdate, jsSetLength, getCache, setCache, assocGet, assocSet,
    cxMid3, cxFinal, cxW3, cxW2, cxW1, cxData, MaxCacheTime]

/-- C3 (counterexample): for the 1.5-tick animation (duration 1/40 s,
`maxFrameIdex = 1`) an uninterrupted full bake followed by `end` leaves
TWO frames, not `maxFrameIdex`, and the 30-second cap played no role. -/
theorem c3_counterexample :
    (getCache (endOp (updateToFrame cxStart "w" none) "w") "w").map
      (fun c => (c.frames.length, c.maxFrameIdex, c.totalTime)) = some (2, 1, 1 / 30) ∧
    (1 : ℚ) / 30 < MaxCacheTime := by
  rw [cx_step4, cx_step5]
  exact ⟨rfl, by norm_num [MaxCacheTime]⟩

theorem c7_step1 : begin c7Start "x" = c7Mid1 := by
  norm_num +decide [begin, beginCore, resetAndBind, engineSetAnimation, getCache, setCache,
    assocGet, assocSet, c7Start, c7Data, setAnimation, initCache, mkAnimationCache,
    lookupLast, FrameTime, c7Mid1, c7X1]

theorem c7_step2 : stepBody c7Mid1 "x" = c7Mid2 := by
  norm_num +decide [stepBody, fireComplete, engineCompleteName, engineRender, jsSet, getCache,
    setCache, assocGet, assocSet, c7Mid1, c7Mid2, c7X1, c7X2, c7Data, lookupLast, FrameTime]

theorem c7_step3 : updateToFrame c7Start "x" none = c7Mid2 := by
  have h0 : updateToFrame c7Start "x" none =
      updateAfterBegin (begin c7Start "x") "x" none := rfl
  rw [h0, c7_step1]
  have hg : getCache c7Mid1 "x" = some c7X1 := rfl
  simp only [updateAfterBegin, hg]
  rw [if_pos (show needToUpdate c7X1 none by
    norm_num [needToUpdate, c7X1, MaxCacheTime])]
  rw [show maxBakeSteps = 1800 + 1 from rfl]
  rw [updateLoop_stop 1800 c7Mid1 "x" none c7X2 (by rw [c7_step2]; rfl)
    (by norm_num [needToUpdate, c7X2, c7X1])]
  exact c7_step2

/-- C7 (counterexample): configuring an unknown animation "x" logs the
diagnostic and leaves `maxFrameIdex` at `0`, but a subsequent bake
produces ONE immediately-completed frame, not zero frames. -/
theorem c7_counterexample :
    (setAnimation (initCache (mkAnimationCache 0 c7Data) "x") "x").maxFrameIdex = 0 ∧
    (setAnimation (initCache (mkAnimationCache 0 c7Data) "x") "x").warnings = ["x"] ∧
    (getCache (updateToFrame c7Start "x" none) "x").map
      (fun c => (c.frames.length, c.isCompleted)) = some (1, true) := by
  refine ⟨rfl, rfl, ?_⟩
  rw [c7_step3]
  rfl

theorem c6_step1 : c6S1 = (⟨false, [("u", ⟨[], none, none⟩)], [], 0, []⟩ : SkeletonCacheState) := by
  norm_num +decide [c6S1, c6S0, getSkeletonCache, assocGet, assocSet, emptyInfo]

theorem c6_step2 : c6S2 = c6L2 := by
  unfold c6S2
  rw [c6_step1]
  norm_num +decide [initAnimationCache, assocGet, assocSet, setAnimation, initCache,
    engineSetAnimation, mkAnimationCache, lookupLast, FrameTime, c6L2, c6Rec0, c7Data]

theorem c6_ctxA : begin (⟨[("w", c6Rec0)], none, none⟩ : SkeletonCacheItemInfo) "w" = c6CtxA := by
  norm_num +decide [begin, beginCore, resetAndBind, engineSetAnimation, getCache, setCache,
    assocGet, assocSet, c6Rec0, c6RecA, c6CtxA, c7Data, lookupLast]

theorem c6_ctxB : stepBody c6CtxA "w" = c6CtxB := by
  norm_num +decide [stepBody, fireComplete, engineCompleteName, engineRender, jsSet, getCache,
    setCache, assocGet, assocSet, c6CtxA, c6CtxB, c6RecA, c6RecB, c6Rec0, c7Data, lookupLast,
    FrameTime]

theorem c6_ctxC :
    updateToFrame (⟨[("w", c6Rec0)], none, none⟩ : SkeletonCacheItemInfo) "w" (some 0)
      = c6CtxB := by
  have h0 : updateToFrame (⟨[("w", c6Rec0)], none, none⟩ : SkeletonCacheItemInfo) "w" (some 0) =
      updateAfterBegin (begin (⟨[("w", c6Rec0)], none, none⟩ : SkeletonCacheItemInfo) "w")
        "w" (some 0) := rfl
  rw [h0, c6_ctxA]
  have hg : getCache c6CtxA "w" = some c6RecA := rfl
  simp only [updateAfterBegin, hg]
  rw [if_pos (show needToUpdate c6RecA (some 0) by
    norm_num [needToUpdate, c6RecA, c6Rec0, MaxCacheTime])]
  rw [show maxBakeSteps = 1800 + 1 from rfl]
  rw [updateLoop_stop 1800 _ "w" (some 0) c6RecB (by rw [c6_ctxB]; rfl)
    (by norm_num [needToUpdate, c6RecB, c6RecA, c6Rec0])]
  exact c6_ctxB

theorem c6_step3 : c6S3 = c6L3 := by
  unfold c6S3
  rw [c6_step2]
  have hgi : assocGet c6L2.skeletonCache "u" =
      some (⟨[("w", c6Rec0)], none, none⟩ : SkeletonCacheItemInfo) := rfl
  simp only [updateToFrameOn, hgi]
  rw [c6_ctxC]
  norm_num +decide [assocSet, c6L2, c6L3]

theorem c6_step4 : c6S4 = c6L4 := by
  unfold c6S4
  rw [c6_step3]
  norm_num +decide [removeSkeleton, clearCache, invalidAllFrame, assocGet, assocSet,
    assocDelete, c6L3, c6L4, c6CtxB, c6RecB, c6RecA, c6Rec0, c6RecP]

theorem c6_step5 : c6S5 = c6L5 := by
  unfold c6S5
  rw [c6_step4]
  norm_num +decide [getSkeletonCache, assocGet, assocSet, emptyInfo, c6L4, c6L5]

theorem c6_step6 : c6Res = (c6LFinal, some c6RecOut) := by
  unfold c6Res
  rw [c6_step5]
  norm_num +decide [initAnimationCache, assocGet, assocSet, assocDelete, setAnimation,
    initCache, engineSetAnimation, lookupLast, FrameTime, c6L5, c6LFinal, c6RecP, c6RecB,
    c6RecA, c6Rec0, c6RecOut, c7Data]

/-- C6 (counterexample): after `removeSkeleton` pooled the recorder and
the context was re-created, `initAnimationCache` returns the pooled
recorder (same engine instance, no new allocation) — but with its one
stale frame still present and `frameIdx = 0`, not empty frames and
`frameIdx = -1`. -/
theorem c6_counterexample :
    c6Res.2.map (fun a => (a.frames.length, a.frameIdx, a.isCompleted, a.instanceId))
      = some (1, 0, false, 0) ∧ c6Res.1.nextInstanceId = 1 := by
  rw [c6_step6]
  exact ⟨rfl, rfl⟩

/-- C9 (counterexample): destroying by identity "a" also disposes and
removes the recorder pooled under the distinct identity "ab", because the
filter is substring containment on the composite key. -/
theorem c9_counterexample :
    c9Res.animationPool.length = 0 ∧ c9Res.destroyedInstances = [0, 1] ∧
    (getAnimationCache c9Res "ab" "w").isSome = false := by
  refine ⟨?_, ?_, ?_⟩ <;> decide

/-- C7 (amended): an unknown animation name makes `setAnimation` log the
diagnostic and change nothing else (the recorder stays unconfigured,
`maxFrameIdex` untouched), and a subsequent argument-less bake on the
unconfigured recorder raises nothing and produces exactly ONE
immediately-completed frame. -/
theorem c7_amended (c : AnimationCache) (s : SkeletonCacheItemInfo) (n : String)
    (hu : lookupLast c.dataAnimations n = none) :
    setAnimation c n = { c with warnings := c.warnings ++ [n] } ∧
    (getCache s n = some c → c.inited = true → c.invalid = true → c.animationName = some n →
     c.maxFrameIdex = 0 → c.frames = [] → s.curAnimationCache = none →
     ∃ c2, getCache (updateToFrame s n none) n = some c2 ∧
       c2.frames.length = 1 ∧ c2.isCompleted = true ∧ c2.maxFrameIdex = 0) := by
  constructor
  · unfold setAnimation
    rw [hu]
  · intro hg hinit hinv hname hm hf hcur
    obtain ⟨iid, data, ec, et, pm, ci, icp, m, fi, ini, inv, an, ic, tt, fr, wa⟩ := c
    simp only at hu hg hinit hinv hname hm hf
    subst hinit hinv hname hm hf
    have hbegin : begin s n =
        { setCache s n (c7bCacheB iid data et pm ci icp n wa) with
          curAnimationCache := some n
          listenerBoundTo := some n } := by
      unfold begin beginCore
      simp only [hg, hcur]
      unfold resetAndBind
      simp only [hg]
      unfold engineSetAnimation
      simp only [hu]
      norm_num [c7bCacheB]
    have hgB : getCache (begin s n) n = some (c7bCacheB iid data et pm ci icp n wa) := by
      rw [hbegin]
      show assocGet (assocSet s.animationsCache n _) n = _
      exact assocGet_assocSet_self s.animationsCache n _
    have hstep : stepBody (begin s n) n =
        setCache (begin s n) n (c7bCacheF iid data et pm ci icp n wa) := by
      unfold stepBody
      simp only [hgB]
      unfold engineCompleteName
      norm_num [c7bCacheB, c7bCacheF, getCache, assocGet_assocSet_self, assocSet_assocSet_self,
        jsSet, engineRender, setCache]
    have hgF : getCache (stepBody (begin s n) n) n =
        some (c7bCacheF iid data et pm ci icp n wa) := by
      rw [hstep]
      exact getCache_setCache_self _ n _
    have hupd : updateToFrame s n none = updateAfterBegin (begin s n) n none := by
      unfold updateToFrame
      simp only [hg]
      norm_num
    rw [hupd]
    simp only [updateAfterBegin, hgB]
    rw [if_pos (show needToUpdate (c7bCacheB iid data et pm ci icp n wa) none by
      exact ⟨by simp [c7bCacheB], by norm_num [c7bCacheB, MaxCacheTime], trivial⟩)]
    rw [show maxBakeSteps = 1800 + 1 from rfl]
    rw [updateLoop_stop 1800 (begin s n) n none (c7bCacheF iid data et pm ci icp n wa) hgF
      (by simp [needToUpdate, c7bCacheF])]
    rw [hstep]
    exact ⟨c7bCacheF iid data et pm ci icp n wa, getCache_setCache_self _ n _,
      by simp [c7bCacheF], by simp [c7bCacheF], by simp [c7bCacheF]⟩

theorem c7_amended_witness :
    lookupLast (setAnimation (initCache (mkAnimationCache 0 c7Data) "x") "x").dataAnimations
      "x" = none ∧
    (∃ c2, getCache (updateToFrame c7Start "x" none) "x" = some c2 ∧
      c2.frames.length = 1 ∧ c2.isCompleted = true ∧ c2.maxFrameIdex = 0) :=
  ⟨rfl, (c7_amended (setAnimation (initCache (mkAnimationCache 0 c7Data) "x") "x") c7Start "x"
    rfl).2 rfl rfl rfl rfl rfl rfl rfl⟩

theorem c3_floor (k : ℕ) : ⌊((k : ℚ) / 60) / FrameTime⌋ = (k : ℤ) := by
  have h : ((k : ℚ) / 60) / FrameTime = (k : ℚ) := by
    rw [show FrameTime = (1 : ℚ) / 60 from rfl]
    field_simp
  rw [h, Int.floor_natCast]

theorem c3_cfg (k : ℕ) (hk : 1 ≤ k) :
    setAnimation (initCache (mkAnimationCache 0 (c3Data k)) "w") "w" =
      (⟨0, c3Data k, some "w", 0, false, -1, false, k, -1, true, true, some "w", false, 0, [],
        []⟩ : AnimationCache) := by
  unfold setAnimation
  rw [show lookupLast (initCache (mkAnimationCache 0 (c3Data k)) "w").dataAnimations "w"
      = some ((k : ℚ) / 60) from rfl]
  simp only [c3_floor k]
  rw [if_neg (by omega : ¬(k : ℤ) ≤ 0)]
  norm_num +decide [engineSetAnimation, initCache, mkAnimationCache, c3Data, lookupLast,
    Int.toNat_natCast]

theorem c3_begin (k : ℕ) (hk : 1 ≤ k) : begin (c3Start k) "w" = bakedState k 0 := by
  have hd0 : decide (k ≤ 0) = false := by
    rw [decide_eq_false_iff_not]
    omega
  have hg : getCache (c3Start k) "w" =
      some (⟨0, c3Data k, some "w", 0, false, -1, false, k, -1, true, true, some "w", false,
        0, [], []⟩ : AnimationCache) := by
    rw [show getCache (c3Start k) "w"
        = some (setAnimation (initCache (mkAnimationCache 0 (c3Data k)) "w") "w") from rfl]
    rw [c3_cfg k hk]
  unfold begin beginCore
  simp only [hg]
  rw [if_neg (by simp)]
  simp only [show (c3Start k).curAnimationCache = none from rfl]
  unfold resetAndBind
  simp only [hg]
  norm_num +decide [engineSetAnimation, lookupLast, c3Data, setCache, assocSet, c3Start,
    bakedState, bakedCache, bakedFrame, hd0, c3_cfg k hk]
  omega

theorem c3_step (k j : ℕ) (hj : j < k) : stepBody (bakedState k j) "w" = bakedState k (j + 1) := by
  have htn : (((j : ℤ) - 1) + 1).toNat = j := by omega
  have htt : ((j : ℚ)) / 60 + FrameTime = ((j : ℚ) + 1) / 60 := by
    rw [show FrameTime = (1 : ℚ) / 60 from rfl]
    ring
  have hcast : ((j + 1 : ℕ) : ℚ) = (j : ℚ) + 1 := by push_cast; ring
  have hidx : ¬ ((k : ℤ) ≤ ((j : ℤ) - 1) + 1) := by omega
  have hidxn : ¬ k ≤ j := by omega
  have hdj : decide (k ≤ j) = false := by
    rw [decide_eq_false_iff_not]
    omega
  have hlen : ((List.range j).map
      (fun i => some (⟨some "w", i + 1⟩ : AnimationFrame))).length = j := by simp
  have hrange : (List.range (j + 1)).map (fun i => some (⟨some "w", i + 1⟩ : AnimationFrame)) =
      (List.range j).map (fun i => some (⟨some "w", i + 1⟩ : AnimationFrame)) ++
        [some (⟨some "w", j + 1⟩ : AnimationFrame)] := by
    rw [List.range_succ]
    simp
  by_cases hc : k ≤ j + 1
  · have hd : decide (k ≤ j + 1) = true := decide_eq_true hc
    have hcnd : ((k : ℚ)) / 60 ≤ ((j : ℚ) + 1) * FrameTime := by
      rw [show FrameTime = (1 : ℚ) / 60 from rfl]
      rw [show ((j : ℚ) + 1) * ((1 : ℚ) / 60) = ((j : ℚ) + 1) / 60 from by ring]
      rw [div_le_div_iff_of_pos_right (by norm_num)]
      exact_mod_cast hc
    norm_num +decide [stepBody, getCache, setCache, assocGet, assocSet, fireComplete,
      engineCompleteName, engineRender, jsSet, bakedState, bakedCache, bakedFrame, c3Data,
      lookupLast, hd, hdj, htn, htt, hcast, hidx, hidxn, hlen, hrange, hcnd]
  · have hd : decide (k ≤ j + 1) = false := by
      rw [decide_eq_false_iff_not]
      omega
    have hcnd : ¬ (((k : ℚ)) / 60 ≤ ((j : ℚ) + 1) * FrameTime) := by
      rw [show FrameTime = (1 : ℚ) / 60 from rfl]
      rw [show ((j : ℚ) + 1) * ((1 : ℚ) / 60) = ((j : ℚ) + 1) / 60 from by ring]
      rw [div_le_div_iff_of_pos_right (by norm_num)]
      intro hcon
      have : (k : ℚ) ≤ ((j + 1 : ℕ) : ℚ) := by push_cast; linarith
      exact hc (by exact_mod_cast this)
    norm_num +decide [stepBody, getCache, setCache, assocGet, assocSet, fireComplete,
      engineCompleteName, engineRender, jsSet, bakedState, bakedCache, bakedFrame, c3Data,
      lookupLast, hd, hdj, htn, htt, hcast, hidx, hidxn, hlen, hrange, hcnd]

theorem c3_guard_lt (k j : ℕ) (hj : j < k) (hk : k ≤ 1800) :
    needToUpdate (bakedCache k j) none := by
  refine ⟨?_, ?_, trivial⟩
  · show ¬ decide (k ≤ j) = true
    simp only [decide_eq_true_eq]
    omega
  · show ((j : ℚ)) / 60 < MaxCacheTime
    rw [show MaxCacheTime = (30 : ℚ) from rfl]
    rw [div_lt_iff₀ (by norm_num : (0 : ℚ) < 60)]
    have : (j : ℚ) < 1800 := by
      exact_mod_cast (by omega : j < 1800)
    linarith

theorem c3_guard_done (k : ℕ) : ¬ needToUpdate (bakedCache k k) none := by
  intro h
  have h1 : ¬ decide (k ≤ k) = true := h.1
  simp at h1

theorem c3_loop (k : ℕ) (hk : k ≤ 1800) :
    ∀ f j : ℕ, j < k → k - j ≤ f →
      updateLoop f (bakedState k j) "w" none = bakedState k k := by
  intro f
  induction f with
  | zero => intro j hj hf; omega
  | succ f ih =>
    intro j hj hf
    have hstep := c3_step k j hj
    by_cases hjk : j + 1 = k
    · rw [updateLoop_stop f (bakedState k j) "w" none (bakedCache k (j + 1))
        (by rw [hstep]; rfl) (by rw [hjk]; exact c3_guard_done k)]
      rw [hstep, hjk]
    · have hj1 : j + 1 < k := by omega
      rw [updateLoop_go f (bakedState k j) "w" none (bakedCache k (j + 1))
        (by rw [hstep]; rfl) (c3_guard_lt k (j + 1) hj1 hk)]
      rw [hstep]
      exact ih (j + 1) hj1 (by omega)

theorem c3_full (k : ℕ) (hk1 : 1 ≤ k) (hk2 : k ≤ 1800) :
    updateToFrame (c3Start k) "w" none = bakedState k k := by
  have h0 : updateToFrame (c3Start k) "w" none =
      updateAfterBegin (begin (c3Start k) "w") "w" none := rfl
  rw [h0, c3_begin k hk1]
  have hg : getCache (bakedState k 0) "w" = some (bakedCache k 0) := rfl
  simp only [updateAfterBegin, hg]
  rw [if_pos (c3_guard_lt k 0 (by omega) hk2)]
  exact c3_loop k hk2 maxBakeSteps 0 (by omega) (by norm_num [maxBakeSteps]; omega)

/-- C3 (amended): for an animation whose duration is a whole number of
ticks `k/60` (`1 ≤ k ≤ 1800`, i.e. within the 30-second cap), an
uninterrupted argument-less bake followed by `end` leaves exactly
`maxFrameIdex = k` frames. -/
theorem c3_amended (k : ℕ) (hk1 : 1 ≤ k) (hk2 : k ≤ 1800) :
    ∃ c, getCache (endOp (updateToFrame (c3Start k) "w" none) "w") "w" = some c ∧
      c.frames.length = c.maxFrameIdex ∧ c.maxFrameIdex = k := by
  rw [c3_full k hk1 hk2]
  unfold endOp
  have hg : getCache (bakedState k k) "w" = some (bakedCache k k) := rfl
  simp only [hg]
  rw [if_neg (c3_guard_done k)]
  refine ⟨_, getCache_setCache_self _ _ _, ?_, rfl⟩
  show (jsSetLength (bakedCache k k).frames ((bakedCache k k).frameIdx + 1).toNat).length
    = (bakedCache k k).maxFrameIdex
  have htn : (((k : ℤ) - 1) + 1).toNat = k := by omega
  have hlen : ((List.range k).map (fun i => some (bakedFrame i))).length = k := by simp
  norm_num [jsSetLength, bakedCache, htn, hlen]

theorem c3_amended_witness :
    (1 : ℕ) ≤ 60 ∧ (60 : ℕ) ≤ 1800 ∧
    (∃ c, getCache (endOp (updateToFrame (c3Start 60) "w" none) "w") "w" = some c ∧
      c.frames.length = c.maxFrameIdex ∧ c.maxFrameIdex = 60) :=
  ⟨by norm_num, by norm_num, c3_amended 60 (by norm_num) (by norm_num)⟩
